import Mathlib

/-!
Verification of the GPS local-frame conversion utilities of src/utils.py.

The Python module operates elementwise with numpy over float arrays; the
embedding models floats as real numbers and arrays as lists of reals, with
numpy ufuncs acting as List.map of the corresponding real function.
-/

namespace Utils

/-- Reference latitude in radians, LAT_0 of _compute_gps_conversion_params. -/
def LAT_0 : ℝ := 0.738167915410646

/-- Reference longitude in radians, LON_0 of _compute_gps_conversion_params. -/
def LON_0 : ℝ := -1.46098650670922

/-- Earth equatorial radius in meters. -/
def re : ℝ := 6378135

/-- Earth polar radius in meters. -/
def rp : ℝ := 6356750

/-- Common base of the two radii of curvature, the quantity
pow(re*cos(LAT_0),2) + pow(rp*sin(LAT_0),2) of source lines 13-14. -/
noncomputable def radiiBase : ℝ :=
  (re * Real.cos LAT_0) ^ 2 + (rp * Real.sin LAT_0) ^ 2

/-- North-south radius of curvature r_ns, source line 13; the Python
pow(x, 3/2) on a positive float is the real power x ^ (3/2). -/
noncomputable def r_ns : ℝ := (re * rp) ^ 2 / radiiBase ^ ((3 : ℝ) / 2)

/-- East-west radius of curvature r_ew, source line 14. -/
noncomputable def r_ew : ℝ := re ^ 2 / radiiBase ^ ((1 : ℝ) / 2)

/-- Tuple returned by _compute_gps_conversion_params, source lines 7-15. -/
noncomputable def _compute_gps_conversion_params : ℝ × ℝ × ℝ × ℝ :=
  (r_ns, r_ew, LAT_0, LON_0)

/-- np.rad2deg: radians to degrees. -/
noncomputable def rad2deg (t : ℝ) : ℝ := t * (180 / Real.pi)

/-- gps_to_local_coord, source lines 24-33, elementwise over the inputs. -/
noncomputable def gps_to_local_coord (lat lon : List ℝ) : List ℝ × List ℝ :=
  (lat.map fun l => Real.sin (l - LAT_0) * r_ns,
   lon.map fun l => Real.sin (l - LON_0) * r_ew * Real.cos LAT_0)

/-- Tuned offset subtracted from x, source line 42. -/
def OFFSET_X : ℝ := 76.50582406697139

/-- Tuned offset subtracted from y, source line 43. -/
def OFFSET_Y : ℝ := 108.31373031919006

/-- local_to_gps_coord, source lines 35-48, elementwise over the inputs. -/
noncomputable def local_to_gps_coord (x y : List ℝ) : List ℝ × List ℝ :=
  (x.map fun xi => rad2deg (Real.arcsin ((xi - OFFSET_X) / r_ns) + LAT_0),
   y.map fun yi =>
     rad2deg (Real.arcsin ((yi - OFFSET_Y) / (r_ew * Real.cos LAT_0)) + LON_0))

/-- Model of _format_lat_lon, source lines 50-53. The rendering of a Python
float to its decimal string is outside the embedding, so the function is
modelled on coordinate values already rendered as strings; the twelve leading
spaces come from the literal format string of line 52. -/
def _format_lat_lon (lat lon : List String) : String :=
  String.intercalate "\n"
    ((lat.zip lon).map fun p => "            " ++ p.2 ++ "," ++ p.1 ++ ",1")

/-- Elements at indices 0, k, 2k, ... of a list. -/
def takeEvery {α : Type u} (k : Nat) (l : List α) : List α :=
  match l with
  | [] => []
  | a :: rest => a :: takeEvery k (rest.drop (k - 1))
termination_by l.length
decreasing_by simp [List.length_drop]; omega

/-- Python slice x[1::200], as used on source lines 81-82: every 200th
element starting at index 1. -/
def slice_1_200 {α : Type u} (l : List α) : List α := takeEvery 200 (l.drop 1)

/-- Model of the coordinate data flow of export_to_kml, source lines 55-87.
The KML templating, the two label slots and the file write are I/O and are
elided; the model returns the latitude/longitude sequences placed into the
first (estimated) and second (ground-truth) coordinate slots. -/
noncomputable def export_to_kml (x1 y1 x2 y2 : List ℝ) (subsample : Bool) :
    (List ℝ × List ℝ) × (List ℝ × List ℝ) :=
  let c1 := local_to_gps_coord x1 y1
  let x2s := if subsample then slice_1_200 x2 else x2
  let y2s := if subsample then slice_1_200 y2 else y2
  (c1, local_to_gps_coord x2s y2s)

/-! ### Bounds on the derived constants -/

lemma radiiBase_ge : rp ^ 2 ≤ radiiBase := by
  have h := Real.sin_sq_add_cos_sq LAT_0
  unfold radiiBase re rp
  nlinarith [sq_nonneg (Real.cos LAT_0), sq_nonneg (Real.sin LAT_0)]

lemma radiiBase_le : radiiBase ≤ re ^ 2 := by
  have h := Real.sin_sq_add_cos_sq LAT_0
  unfold radiiBase re rp
  nlinarith [sq_nonneg (Real.cos LAT_0), sq_nonneg (Real.sin LAT_0)]

lemma radiiBase_pos : 0 < radiiBase :=
  lt_of_lt_of_le (by norm_num [rp]) radiiBase_ge

lemma r_ns_pos : 0 < r_ns :=
  div_pos (by norm_num [re, rp]) (Real.rpow_pos_of_pos radiiBase_pos _)

lemma r_ew_pos : 0 < r_ew :=
  div_pos (by norm_num [re]) (Real.rpow_pos_of_pos radiiBase_pos _)

lemma cos_LAT_0_ge : (0.72 : ℝ) ≤ Real.cos LAT_0 := by
  have h : 1 - LAT_0 ^ 2 / 2 ≤ Real.cos LAT_0 := Real.one_sub_sq_div_two_le_cos
  have h2 : (0.72 : ℝ) ≤ 1 - LAT_0 ^ 2 / 2 := by norm_num [LAT_0]
  linarith

lemma cos_LAT_0_pos : 0 < Real.cos LAT_0 :=
  lt_of_lt_of_le (by norm_num) cos_LAT_0_ge

lemma sqrt_radiiBase_le : radiiBase ^ ((1 : ℝ) / 2) ≤ re := by
  have h : radiiBase ^ ((1 : ℝ) / 2) ≤ (re ^ 2) ^ ((1 : ℝ) / 2) :=
    Real.rpow_le_rpow radiiBase_pos.le radiiBase_le (by norm_num)
  have h2 : ((re : ℝ) ^ 2) ^ ((1 : ℝ) / 2) = re := by
    rw [← Real.rpow_natCast re 2, ← Real.rpow_mul (by norm_num [re])]
    rw [show ((2 : ℕ) : ℝ) * (1 / 2) = 1 by norm_num, Real.rpow_one]
  linarith

lemma cube_radiiBase_le : radiiBase ^ ((3 : ℝ) / 2) ≤ re ^ 3 := by
  have h : radiiBase ^ ((3 : ℝ) / 2) ≤ (re ^ 2) ^ ((3 : ℝ) / 2) :=
    Real.rpow_le_rpow radiiBase_pos.le radiiBase_le (by norm_num)
  have h2 : ((re : ℝ) ^ 2) ^ ((3 : ℝ) / 2) = re ^ 3 := by
    rw [← Real.rpow_natCast re 2, ← Real.rpow_mul (by norm_num [re])]
    rw [show ((2 : ℕ) : ℝ) * (3 / 2) = ((3 : ℕ) : ℝ) by norm_num, Real.rpow_natCast]
  linarith

lemma r_ns_lb : rp ^ 2 / re ≤ r_ns := by
  have h1 : (re * rp) ^ 2 / re ^ 3 ≤ r_ns :=
    div_le_div_of_nonneg_left (by positivity)
      (Real.rpow_pos_of_pos radiiBase_pos _) cube_radiiBase_le
  have h2 : (re * rp) ^ 2 / re ^ 3 = rp ^ 2 / re := by
    rw [div_eq_div_iff (by norm_num [re]) (by norm_num [re])]
    ring
  linarith

lemma r_ew_lb : re ≤ r_ew := by
  have h1 : re ^ 2 / re ≤ r_ew :=
    div_le_div_of_nonneg_left (by positivity)
      (Real.rpow_pos_of_pos radiiBase_pos _) sqrt_radiiBase_le
  have h2 : (re : ℝ) ^ 2 / re = re := by
    rw [sq]
    exact mul_div_cancel_right₀ re (by norm_num [re])
  linarith

lemma r_ew_cos_lb : re * 0.72 ≤ r_ew * Real.cos LAT_0 :=
  mul_le_mul r_ew_lb cos_LAT_0_ge (by norm_num) (le_trans (by norm_num [re]) r_ew_lb)

lemma ox_ratio : OFFSET_X / r_ns ≤ 1 / 2 := by
  have h1 : OFFSET_X / r_ns ≤ OFFSET_X / (rp ^ 2 / re) :=
    div_le_div_of_nonneg_left (by norm_num [OFFSET_X])
      (by norm_num [re, rp]) r_ns_lb
  have h2 : OFFSET_X / (rp ^ 2 / re) ≤ 1 / 2 := by norm_num [OFFSET_X, re, rp]
  linarith

lemma ox_ratio_pos : 0 < OFFSET_X / r_ns :=
  div_pos (by norm_num [OFFSET_X]) r_ns_pos

lemma r_ew_cos_pos : 0 < r_ew * Real.cos LAT_0 :=
  mul_pos r_ew_pos cos_LAT_0_pos

lemma oy_ratio : OFFSET_Y / (r_ew * Real.cos LAT_0) ≤ 1 / 2 := by
  have h1 : OFFSET_Y / (r_ew * Real.cos LAT_0) ≤ OFFSET_Y / (re * 0.72) :=
    div_le_div_of_nonneg_left (by norm_num [OFFSET_Y])
      (by norm_num [re]) r_ew_cos_lb
  have h2 : OFFSET_Y / (re * 0.72) ≤ 1 / 2 := by norm_num [OFFSET_Y, re]
  linarith

lemma oy_ratio_pos : 0 < OFFSET_Y / (r_ew * Real.cos LAT_0) :=
  div_pos (by norm_num [OFFSET_Y]) r_ew_cos_pos

/-! ### Claims -/

/-- Claim C4: the linearization parameter derivation returns exactly the tuple
(r_ns, r_ew, lat0, lon0) with the radii given by the spec formulas over the
fixed constants re = 6378135, rp = 6356750, lat0 = 0.738167915410646 and
lon0 = -1.46098650670922; as a pure definition it is deterministic,
side-effect-free and total. -/
theorem claim_C4 :
    _compute_gps_conversion_params =
      ((re * rp) ^ 2 /
         ((re * Real.cos LAT_0) ^ 2 + (rp * Real.sin LAT_0) ^ 2) ^ ((3 : ℝ) / 2),
       re ^ 2 /
         ((re * Real.cos LAT_0) ^ 2 + (rp * Real.sin LAT_0) ^ 2) ^ ((1 : ℝ) / 2),
       0.738167915410646, -1.46098650670922) ∧
    re = 6378135 ∧ rp = 6356750 :=
  ⟨rfl, rfl, rfl⟩

/-- Claim C1: on equal-length inputs in radians, gps_to_local_coord returns
sequences of the same length with x_i = sin(lat_i - lat0) * r_ns and
y_i = sin(lon_i - lon0) * r_ew * cos(lat0) at every index; element i of the
output depends only on element i of the inputs, so permuted inputs give
identically permuted outputs. -/
theorem claim_C1 (lat lon : List ℝ) (h : lat.length = lon.length) :
    ((gps_to_local_coord lat lon).1.length = lat.length ∧
     (gps_to_local_coord lat lon).2.length = lon.length) ∧
    (∀ i : ℕ,
      ((gps_to_local_coord lat lon).1)[i]? =
        Option.map (fun l => Real.sin (l - LAT_0) * r_ns) lat[i]? ∧
      ((gps_to_local_coord lat lon).2)[i]? =
        Option.map (fun l => Real.sin (l - LON_0) * r_ew * Real.cos LAT_0) lon[i]?) ∧
    (∀ (lat2 lon2 : List ℝ) (i j : ℕ), lat[i]? = lat2[j]? → lon[i]? = lon2[j]? →
      ((gps_to_local_coord lat lon).1)[i]? = ((gps_to_local_coord lat2 lon2).1)[j]? ∧
      ((gps_to_local_coord lat lon).2)[i]? = ((gps_to_local_coord lat2 lon2).2)[j]?) := by
  refine ⟨⟨by simp [gps_to_local_coord], by simp [gps_to_local_coord]⟩,
    fun i => ⟨by simp [gps_to_local_coord], by simp [gps_to_local_coord]⟩, ?_⟩
  intro lat2 lon2 i j hi hj
  constructor
  · simp only [gps_to_local_coord, List.getElem?_map, hi]
  · simp only [gps_to_local_coord, List.getElem?_map, hj]

/-- Witness for claim C1 at the one-point inputs [0], [0]. -/
theorem claim_C1_witness :
    ([(0 : ℝ)].length = [(0 : ℝ)].length) ∧
    (((gps_to_local_coord [0] [0]).1.length = [(0 : ℝ)].length ∧
      (gps_to_local_coord [0] [0]).2.length = [(0 : ℝ)].length) ∧
     (∀ i : ℕ,
       ((gps_to_local_coord [0] [0]).1)[i]? =
         Option.map (fun l => Real.sin (l - LAT_0) * r_ns) ([(0 : ℝ)])[i]? ∧
       ((gps_to_local_coord [0] [0]).2)[i]? =
         Option.map (fun l => Real.sin (l - LON_0) * r_ew * Real.cos LAT_0)
           ([(0 : ℝ)])[i]?) ∧
     (∀ (lat2 lon2 : List ℝ) (i j : ℕ),
       ([(0 : ℝ)])[i]? = lat2[j]? → ([(0 : ℝ)])[i]? = lon2[j]? →
       ((gps_to_local_coord [0] [0]).1)[i]? = ((gps_to_local_coord lat2 lon2).1)[j]? ∧
       ((gps_to_local_coord [0] [0]).2)[i]? = ((gps_to_local_coord lat2 lon2).2)[j]?)) :=
  ⟨rfl, claim_C1 [0] [0] rfl⟩

/-- Claim C3: on equal-length inputs in meters, local_to_gps_coord returns, at
every index, lat_i = rad2deg(arcsin((x_i - 76.50582406697139) / r_ns) + lat0)
and lon_i = rad2deg(arcsin((y_i - 108.31373031919006) / (r_ew cos lat0)) + lon0):
it subtracts exactly the fixed empirical offsets before the inverse projection
and returns degrees. -/
theorem claim_C3 (x y : List ℝ) (h : x.length = y.length) :
    ((local_to_gps_coord x y).1.length = x.length ∧
     (local_to_gps_coord x y).2.length = y.length) ∧
    ∀ i : ℕ,
      ((local_to_gps_coord x y).1)[i]? =
        Option.map
          (fun xi => rad2deg (Real.arcsin ((xi - 76.50582406697139) / r_ns) + LAT_0))
          x[i]? ∧
      ((local_to_gps_coord x y).2)[i]? =
        Option.map
          (fun yi => rad2deg (Real.arcsin
            ((yi - 108.31373031919006) / (r_ew * Real.cos LAT_0)) + LON_0))
          y[i]? := by
  refine ⟨⟨by simp [local_to_gps_coord], by simp [local_to_gps_coord]⟩, fun i => ⟨?_, ?_⟩⟩
  · simp [local_to_gps_coord, OFFSET_X]
  · simp [local_to_gps_coord, OFFSET_Y]

/-- Witness for claim C3 at the one-point inputs [0], [0]. -/
theorem claim_C3_witness :
    ([(0 : ℝ)].length = [(0 : ℝ)].length) ∧
    (((local_to_gps_coord [0] [0]).1.length = [(0 : ℝ)].length ∧
      (local_to_gps_coord [0] [0]).2.length = [(0 : ℝ)].length) ∧
     ∀ i : ℕ,
       ((local_to_gps_coord [0] [0]).1)[i]? =
         Option.map
           (fun xi => rad2deg (Real.arcsin ((xi - 76.50582406697139) / r_ns) + LAT_0))
           ([(0 : ℝ)])[i]? ∧
       ((local_to_gps_coord [0] [0]).2)[i]? =
         Option.map
           (fun yi => rad2deg (Real.arcsin
             ((yi - 108.31373031919006) / (r_ew * Real.cos LAT_0)) + LON_0))
           ([(0 : ℝ)])[i]?) :=
  ⟨rfl, claim_C3 [0] [0] rfl⟩

/-- Claim C5: the forward conversion maps the reference point itself to
exactly zero, both on the concrete one-point input and elementwise at any
index holding the reference coordinates. -/
theorem claim_C5 :
    gps_to_local_coord [LAT_0] [LON_0] = ([0], [0]) ∧
    ∀ (lat lon : List ℝ) (i : ℕ), lat[i]? = some LAT_0 → lon[i]? = some LON_0 →
      ((gps_to_local_coord lat lon).1)[i]? = some 0 ∧
      ((gps_to_local_coord lat lon).2)[i]? = some 0 := by
  constructor
  · simp [gps_to_local_coord]
  · intro lat lon i hla hlo
    constructor
    · simp [gps_to_local_coord, List.getElem?_map, hla]
    · simp [gps_to_local_coord, List.getElem?_map, hlo]

/-- Witness for claim C5, evaluating the elementwise part at index 0 of the
one-point reference input. -/
theorem claim_C5_witness :
    (([LAT_0] : List ℝ)[0]? = some LAT_0) ∧ (([LON_0] : List ℝ)[0]? = some LON_0) ∧
    ((gps_to_local_coord [LAT_0] [LON_0]).1)[0]? = some 0 ∧
    ((gps_to_local_coord [LAT_0] [LON_0]).2)[0]? = some 0 :=
  ⟨rfl, rfl, claim_C5.2 [LAT_0] [LON_0] 0 rfl rfl⟩

/-- Claim C7 counterexample: the latitude lat0 + pi exceeds lat0, yet the
north offset it produces is sin(pi) * r_ns = 0, which is not positive, so the
unrestricted sign claim fails. -/
theorem claim_C7_cex :
    LAT_0 < LAT_0 + Real.pi ∧
    ¬ (0 < ((gps_to_local_coord [LAT_0 + Real.pi] [LON_0]).1).headI) := by
  constructor
  · linarith [Real.pi_pos]
  · simp [gps_to_local_coord, add_sub_cancel_left, Real.sin_pi]

/-- Claim C7 amended: for an input latitude strictly between lat0 and
lat0 + pi the north offset is positive, and for an input longitude strictly
between lon0 and lon0 + pi the east offset is positive; the unrestricted
claim fails once the angular offset reaches pi. -/
theorem claim_C7_amended (lats lons : List ℝ) (i : ℕ) (la lo : ℝ)
    (hla : lats[i]? = some la) (hlo : lons[i]? = some lo) :
    (LAT_0 < la → la < LAT_0 + Real.pi →
      ((gps_to_local_coord lats lons).1)[i]? = some (Real.sin (la - LAT_0) * r_ns) ∧
      0 < Real.sin (la - LAT_0) * r_ns) ∧
    (LON_0 < lo → lo < LON_0 + Real.pi →
      ((gps_to_local_coord lats lons).2)[i]? =
        some (Real.sin (lo - LON_0) * r_ew * Real.cos LAT_0) ∧
      0 < Real.sin (lo - LON_0) * r_ew * Real.cos LAT_0) := by
  constructor
  · intro hgt hlt
    refine ⟨by simp [gps_to_local_coord, List.getElem?_map, hla], ?_⟩
    have hs : 0 < Real.sin (la - LAT_0) :=
      Real.sin_pos_of_pos_of_lt_pi (by linarith) (by linarith)
    exact mul_pos hs r_ns_pos
  · intro hgt hlt
    refine ⟨by simp [gps_to_local_coord, List.getElem?_map, hlo], ?_⟩
    have hs : 0 < Real.sin (lo - LON_0) :=
      Real.sin_pos_of_pos_of_lt_pi (by linarith) (by linarith)
    exact mul_pos (mul_pos hs r_ew_pos) cos_LAT_0_pos

/-- Witness for the amended claim C7 at latitude lat0 + 1 and longitude
lon0 + 1, both one radian above the reference. -/
theorem claim_C7_witness :
    (([LAT_0 + 1] : List ℝ)[0]? = some (LAT_0 + 1)) ∧
    (([LON_0 + 1] : List ℝ)[0]? = some (LON_0 + 1)) ∧
    (((gps_to_local_coord [LAT_0 + 1] [LON_0 + 1]).1)[0]? =
       some (Real.sin (LAT_0 + 1 - LAT_0) * r_ns) ∧
     0 < Real.sin (LAT_0 + 1 - LAT_0) * r_ns) ∧
    (((gps_to_local_coord [LAT_0 + 1] [LON_0 + 1]).2)[0]? =
       some (Real.sin (LON_0 + 1 - LON_0) * r_ew * Real.cos LAT_0) ∧
     0 < Real.sin (LON_0 + 1 - LON_0) * r_ew * Real.cos LAT_0) :=
  ⟨rfl, rfl,
   (claim_C7_amended [LAT_0 + 1] [LON_0 + 1] 0 (LAT_0 + 1) (LON_0 + 1) rfl rfl).1
     (by linarith) (by linarith [Real.pi_gt_three]),
   (claim_C7_amended [LAT_0 + 1] [LON_0 + 1] 0 (LAT_0 + 1) (LON_0 + 1) rfl rfl).2
     (by linarith) (by linarith [Real.pi_gt_three])⟩

lemma takeEvery_nil {α : Type u} (k : Nat) : takeEvery k ([] : List α) = [] := by
  rw [takeEvery]

lemma takeEvery_cons {α : Type u} (k : Nat) (a : α) (rest : List α) :
    takeEvery k (a :: rest) = a :: takeEvery k (rest.drop (k - 1)) := by
  rw [takeEvery]

lemma takeEvery_200_drop {α : Type u} (l : List α) (n : ℕ) (hn : n < l.length) :
    takeEvery 200 (l.drop n) = l[n] :: takeEvery 200 (l.drop (n + 200)) := by
  rw [List.drop_eq_getElem_cons hn, takeEvery_cons, List.drop_drop]

/-- Claim C8: applying the export decimation policy, the slice x[1::200], to a
sequence of 1000 points yields exactly the points at indices 1, 201, 401, 601
and 801, a sequence of exactly 5 points. -/
theorem claim_C8 (l : List ℝ) (h : l.length = 1000) :
    slice_1_200 l =
      [l.get ⟨1, by omega⟩, l.get ⟨201, by omega⟩, l.get ⟨401, by omega⟩,
       l.get ⟨601, by omega⟩, l.get ⟨801, by omega⟩] ∧
    (slice_1_200 l).length = 5 := by
  have e : slice_1_200 l =
      [l.get ⟨1, by omega⟩, l.get ⟨201, by omega⟩, l.get ⟨401, by omega⟩,
       l.get ⟨601, by omega⟩, l.get ⟨801, by omega⟩] := by
    show takeEvery 200 (l.drop 1) = _
    rw [takeEvery_200_drop l 1 (by omega)]
    norm_num
    rw [takeEvery_200_drop l 201 (by omega)]
    norm_num
    rw [takeEvery_200_drop l 401 (by omega)]
    norm_num
    rw [takeEvery_200_drop l 601 (by omega)]
    norm_num
    rw [takeEvery_200_drop l 801 (by omega)]
    norm_num
    rw [List.drop_eq_nil_of_le (by omega), takeEvery_nil]
  exact ⟨e, by rw [e]; rfl⟩

/-- Witness for claim C8 on the concrete 1000-point list of zeros. -/
theorem claim_C8_witness :
    (List.replicate 1000 (0 : ℝ)).length = 1000 ∧
    (slice_1_200 (List.replicate 1000 (0 : ℝ)) =
      [(List.replicate 1000 (0 : ℝ)).get ⟨1, by simp only [List.length_replicate]; omega⟩,
       (List.replicate 1000 (0 : ℝ)).get ⟨201, by simp only [List.length_replicate]; omega⟩,
       (List.replicate 1000 (0 : ℝ)).get ⟨401, by simp only [List.length_replicate]; omega⟩,
       (List.replicate 1000 (0 : ℝ)).get ⟨601, by simp only [List.length_replicate]; omega⟩,
       (List.replicate 1000 (0 : ℝ)).get ⟨801, by simp only [List.length_replicate]; omega⟩] ∧
     (slice_1_200 (List.replicate 1000 (0 : ℝ))).length = 5) :=
  ⟨by simp only [List.length_replicate],
   claim_C8 (List.replicate 1000 (0 : ℝ)) (by simp only [List.length_replicate])⟩

/-- Claim C9 counterexample: each formatted record carries twelve leading
spaces from the literal format string, so on latitudes [1.0, 2.0] and
longitudes [3.0, 4.0] the output is not the unindented two-line text of the
claim. -/
theorem claim_C9_cex :
    _format_lat_lon ["1.0", "2.0"] ["3.0", "4.0"] ≠
      "3.0,1.0,1" ++ "\n" ++ "4.0,2.0,1" := by
  decide

/-- Claim C9 amended: on latitudes [1.0, 2.0] and longitudes [3.0, 4.0] the
formatter produces one record per point in input order, with field order
longitude,latitude,altitude, fixed altitude 1 and twelve leading spaces on
each record, the two records joined by a newline. -/
theorem claim_C9_amended :
    _format_lat_lon ["1.0", "2.0"] ["3.0", "4.0"] =
      "            3.0,1.0,1" ++ "\n" ++ "            4.0,2.0,1" := by
  decide

/-- Claim C10: in export_to_kml the subsample flag affects only the
ground-truth sequence, which it decimates with the slice [1::200] before the
inverse conversion, while the estimated sequence is converted at full
resolution for either value of the flag. -/
theorem claim_C10 (x1 y1 x2 y2 : List ℝ) :
    (∀ s : Bool, (export_to_kml x1 y1 x2 y2 s).1 = local_to_gps_coord x1 y1) ∧
    (export_to_kml x1 y1 x2 y2 true).2 =
      local_to_gps_coord (slice_1_200 x2) (slice_1_200 y2) ∧
    (export_to_kml x1 y1 x2 y2 false).2 = local_to_gps_coord x2 y2 :=
  ⟨fun _ => rfl, rfl, rfl⟩

/-- Claim C2: for a point within pi/6 radians of the reference point, the
forward conversion followed by the inverse conversion recovers the point in
degrees (exactly, hence within any tolerance) once the empirical offsets are
re-added to the local coordinates, while the round trip without re-adding the
offsets does not recover the point. -/
theorem claim_C2 (lat lon : ℝ)
    (h1 : |lat - LAT_0| ≤ Real.pi / 6) (h2 : |lon - LON_0| ≤ Real.pi / 6) :
    local_to_gps_coord
        [((gps_to_local_coord [lat] [lon]).1).headI + 76.50582406697139]
        [((gps_to_local_coord [lat] [lon]).2).headI + 108.31373031919006] =
      ([rad2deg lat], [rad2deg lon]) ∧
    local_to_gps_coord [((gps_to_local_coord [lat] [lon]).1).headI]
        [((gps_to_local_coord [lat] [lon]).2).headI] ≠
      ([rad2deg lat], [rad2deg lon]) := by
  have hpi := Real.pi_pos
  have hr : r_ns ≠ 0 := ne_of_gt r_ns_pos
  have hrc : r_ew * Real.cos LAT_0 ≠ 0 := ne_of_gt r_ew_cos_pos
  obtain ⟨h1a, h1b⟩ := abs_le.mp h1
  obtain ⟨h2a, h2b⟩ := abs_le.mp h2
  have harc1 : Real.arcsin (Real.sin (lat - LAT_0)) = lat - LAT_0 :=
    Real.arcsin_sin (by linarith) (by linarith)
  have harc2 : Real.arcsin (Real.sin (lon - LON_0)) = lon - LON_0 :=
    Real.arcsin_sin (by linarith) (by linarith)
  have e1 : ((gps_to_local_coord [lat] [lon]).1).headI =
      Real.sin (lat - LAT_0) * r_ns := rfl
  have e2 : ((gps_to_local_coord [lat] [lon]).2).headI =
      Real.sin (lon - LON_0) * r_ew * Real.cos LAT_0 := rfl
  constructor
  · rw [e1, e2]
    unfold local_to_gps_coord OFFSET_X OFFSET_Y
    simp only [List.map_cons, List.map_nil]
    rw [add_sub_cancel_right, add_sub_cancel_right, mul_div_cancel_right₀ _ hr,
        mul_assoc (Real.sin (lon - LON_0)) r_ew (Real.cos LAT_0),
        mul_div_cancel_right₀ _ hrc, harc1, harc2, sub_add_cancel, sub_add_cancel]
  · rw [e1, e2]
    intro heq
    have hhead : rad2deg
        (Real.arcsin ((Real.sin (lat - LAT_0) * r_ns - OFFSET_X) / r_ns) + LAT_0) =
        rad2deg lat :=
      congrArg (fun p => (Prod.fst p).headI) heq
    have hdiv : (Real.sin (lat - LAT_0) * r_ns - OFFSET_X) / r_ns =
        Real.sin (lat - LAT_0) - OFFSET_X / r_ns := by
      rw [sub_div, mul_div_cancel_right₀ _ hr]
    have hsin_lb : -(1 / 2 : ℝ) ≤ Real.sin (lat - LAT_0) := by
      have hmono := Real.strictMonoOn_sin.monotoneOn
      have hmem1 : -(Real.pi / 6) ∈ Set.Icc (-(Real.pi / 2)) (Real.pi / 2) := by
        constructor <;> linarith
      have hmem2 : lat - LAT_0 ∈ Set.Icc (-(Real.pi / 2)) (Real.pi / 2) := by
        constructor <;> linarith
      have hle := hmono hmem1 hmem2 (by linarith)
      rw [Real.sin_neg, Real.sin_pi_div_six] at hle
      linarith
    have hlt : Real.arcsin (Real.sin (lat - LAT_0) - OFFSET_X / r_ns) < lat - LAT_0 := by
      have hx_mem : Real.sin (lat - LAT_0) - OFFSET_X / r_ns ∈ Set.Icc (-1 : ℝ) 1 := by
        constructor
        · have := ox_ratio
          linarith
        · have := ox_ratio_pos
          have := Real.sin_le_one (lat - LAT_0)
          linarith
      have hy_mem : Real.sin (lat - LAT_0) ∈ Set.Icc (-1 : ℝ) 1 :=
        ⟨Real.neg_one_le_sin _, Real.sin_le_one _⟩
      have hs := Real.strictMonoOn_arcsin hx_mem hy_mem (by linarith [ox_ratio_pos])
      rw [harc1] at hs
      exact hs
    have hne : rad2deg
        (Real.arcsin ((Real.sin (lat - LAT_0) * r_ns - OFFSET_X) / r_ns) + LAT_0) <
        rad2deg lat := by
      rw [hdiv]
      unfold rad2deg
      have hpos : 0 < 180 / Real.pi := by positivity
      exact mul_lt_mul_of_pos_right (by linarith) hpos
    exact absurd hhead (ne_of_lt hne)

/-- Witness for claim C2 at the reference point itself. -/
theorem claim_C2_witness :
    |LAT_0 - LAT_0| ≤ Real.pi / 6 ∧ |LON_0 - LON_0| ≤ Real.pi / 6 ∧
    (local_to_gps_coord
        [((gps_to_local_coord [LAT_0] [LON_0]).1).headI + 76.50582406697139]
        [((gps_to_local_coord [LAT_0] [LON_0]).2).headI + 108.31373031919006] =
      ([rad2deg LAT_0], [rad2deg LON_0]) ∧
     local_to_gps_coord [((gps_to_local_coord [LAT_0] [LON_0]).1).headI]
        [((gps_to_local_coord [LAT_0] [LON_0]).2).headI] ≠
      ([rad2deg LAT_0], [rad2deg LON_0])) :=
  ⟨by rw [sub_self, abs_zero]; positivity,
   by rw [sub_self, abs_zero]; positivity,
   claim_C2 LAT_0 LON_0 (by rw [sub_self, abs_zero]; positivity)
     (by rw [sub_self, abs_zero]; positivity)⟩

end Utils
